import Mathlib

/-!
Shallow embedding of the AI-IP-Camera operator dashboard client
(src/api.ts and the main UI component) and proofs of its
polling/lifecycle properties.

The UI component's React state hooks become the fields of `AppState`;
each event handler (`onStart`, `onStop`, `onPause`, the board `onChange`,
`handleImageError`, `loadProfiling`) becomes a pure state-transition
function.  Because handlers are `async`, the network outcome of the single
request a handler awaits is passed in as an `Outcome` argument, and the
backend requests / timer registrations a handler performs are returned as
an explicit `Action` list.  The `useEffect` blocks keyed on `jobId`
(the three pollers) and on `selectedBoardId` (camera/model loading) are
modelled as derived scheduling predicates and explicit effect-phase
functions.
-/

namespace AIIPCamera

/-- Board interface from src/api.ts. -/
structure Board where
  id : String
  name : String
  ip : String
  base_path : Option String
deriving Repr, DecidableEq

/-- CameraItem interface from src/api.ts. -/
structure CameraItem where
  id : String
  name : String
  path : String
deriving Repr, DecidableEq

/-- ModelItem interface from src/api.ts. -/
structure ModelItem where
  id : String
  name : String
  path : Option String
  script : Option String
  model_file : Option String
deriving Repr, DecidableEq

/-- Event interface from src/api.ts (the `metadata: any` field is
modelled as an opaque optional string). -/
structure Event where
  event_id : String
  event_type : String
  timestamp : String
  plate_number : Option String
  speed : Option Int
  confidence : Option Int
  camera_id : Option String
  board_id : Option String
  image_base64 : Option String
  image_path : Option String
  created_at : Option String
  metadata : Option String
deriving Repr, DecidableEq

/-- ProfilingData interface from src/api.ts (numeric JSON fields as `Int`). -/
structure ProfilingData where
  job_id : String
  fps : Int
  resolution : String
  frame_count : Nat
  inference_ms : Int
  model : String
  camera : String
  board : String
  frame_delay_ms : Int
  timestamp : String
  streaming : Bool
deriving Repr, DecidableEq

/-- A saved detection frame as consumed by the saved-frames gallery
(`frame_id`, `timestamp`, `detections`, `model_id`, `image_base64`). -/
structure SavedFrame where
  frame_id : String
  timestamp : String
  detections : Nat
  model_id : String
  image_base64 : String
deriving Repr, DecidableEq

/-- Success payload of the start-job endpoint: `{job_id, stream_url, ...}`. -/
structure StartResp where
  job_id : String
  stream_url : String
deriving Repr, DecidableEq

/-- Result of awaiting one backend request: either the parsed response or
a thrown error carrying a message. -/
inductive Outcome (α : Type) where
  | ok (a : α)
  | err (msg : String)
deriving Repr, DecidableEq

/-- The React state hooks of the UI component, one field per `useState`. -/
structure AppState where
  boards : List Board
  cameras : List CameraItem
  models : List ModelItem
  selectedBoardId : String
  selectedCameraId : String
  selectedModelId : String
  jobId : Option String
  streamUrl : String
  busy : Bool
  isPaused : Bool
  imageLoaded : Bool
  streamError : Option String
  countdown : Nat
  loadingModels : Bool
  events : List Event
  selectedEvent : Option Event
  savedFrames : List SavedFrame
  profiling : Option ProfilingData
  isVideoMinimized : Bool
  isVideoFullscreen : Bool
deriving Repr, DecidableEq

/-- HTTP method of a request issued by the fetch wrapper. -/
inductive Method where
  | get
  | post
deriving Repr, DecidableEq

/-- A backend request as assembled by src/api.ts: method, full URL, and the
JSON body (a field list, `none` when the fetch sends no body). -/
structure Request where
  method : Method
  url : String
  body : Option (List (String × String))
deriving Repr, DecidableEq

/-- BACKEND constant from src/api.ts. -/
def BACKEND : String := "http://192.168.1.56:8000"

/-- The request `startJob` in src/api.ts issues: POST `/jobs/start` with
body `{board_id, camera, model}`. -/
def startJobRequest (boardId : String) (cameraId : String) (modelId : String) : Request :=
  { method := Method.post
    url := BACKEND ++ "/jobs/start"
    body := some [("board_id", boardId), ("camera", cameraId), ("model", modelId)] }

/-- The request `stopJob` in src/api.ts issues: POST `/jobs/stop`.  The
`jobId` argument is only logged to the console; the fetch carries no body
and no use of `jobId`. -/
def stopJobRequest (jobId : String) : Request :=
  { method := Method.post
    url := BACKEND ++ "/jobs/stop"
    body := none }

/-- Observable actions a handler performs besides updating state:
backend requests, the 3-second settle delay, and registering the
one-shot 8-second warm-up `setTimeout` that assigns the stream URL. -/
inductive Action where
  | startReq (boardId : String) (cameraId : String) (modelId : String)
  | stopReq
  | pauseReq (boardId : String)
  | resumeReq (boardId : String)
  | eventsReq (limit : Nat)
  | profilingReq (jobId : String)
  | framesReq
  | settleDelay
  | scheduleWarmup (url : String)
deriving Repr, DecidableEq

/-- Guard `canStart`: all three selections picked, not busy, no active job
(JS truthiness of the selection strings is non-emptiness). -/
def canStart (st : AppState) : Bool :=
  !(st.selectedBoardId == "") && !(st.selectedCameraId == "") &&
    !(st.selectedModelId == "") && !st.busy && st.jobId.isNone

/-- Guard `canStop`: active job and not busy. -/
def canStop (st : AppState) : Bool :=
  st.jobId.isSome && !st.busy

/-- Guard `canPause`: active job and not busy. -/
def canPause (st : AppState) : Bool :=
  st.jobId.isSome && !st.busy

/-- The `onStart` handler.  Returns the state after the handler completes
(including the `finally` clause) together with the actions performed in
order.  `outcome` is the awaited result of the start-job request. -/
def onStart (st : AppState) (outcome : Outcome StartResp) : AppState × List Action :=
  if !canStart st then (st, [])
  else
    let st1 : AppState :=
      { st with busy := true, imageLoaded := false, streamError := none,
                countdown := 8, isPaused := false }
    let pre : List Action := if st1.jobId.isSome then [Action.settleDelay] else []
    let req : Action :=
      Action.startReq st.selectedBoardId st.selectedCameraId st.selectedModelId
    match outcome with
    | Outcome.ok res =>
        ({ st1 with jobId := some res.job_id, busy := false },
         pre ++ [req, Action.scheduleWarmup res.stream_url])
    | Outcome.err msg =>
        ({ st1 with streamError := some ("Failed to start: " ++ msg),
                    jobId := none, streamUrl := "", busy := false },
         pre ++ [req])

/-- The `onStop` handler.  `outcome` is the awaited result of the
stop-job request; the `finally` clause clears `busy` on both paths. -/
def onStop (st : AppState) (outcome : Outcome Unit) : AppState × List Action :=
  if st.jobId.isNone || st.busy then (st, [])
  else
    match outcome with
    | Outcome.ok _ =>
        ({ st with busy := false, jobId := none, streamUrl := "",
                   imageLoaded := false, streamError := none, countdown := 0,
                   isPaused := false, events := [], selectedEvent := none,
                   profiling := none, savedFrames := [],
                   isVideoMinimized := false },
         [Action.stopReq])
    | Outcome.err _ =>
        ({ st with busy := false }, [Action.stopReq])

/-- The `onPause` handler: toggles pause/resume; on failure the toggle
state is left unchanged; `finally` clears `busy`. -/
def onPause (st : AppState) (outcome : Outcome Unit) : AppState × List Action :=
  if st.jobId.isNone || st.selectedBoardId == "" then (st, [])
  else
    let req : Action :=
      if st.isPaused then Action.resumeReq st.selectedBoardId
      else Action.pauseReq st.selectedBoardId
    match outcome with
    | Outcome.ok _ =>
        ({ st with busy := false, isPaused := !st.isPaused }, [req])
    | Outcome.err _ =>
        ({ st with busy := false }, [req])

/-- The board `<select>` `onChange` handler: records the new board id and
clears the camera and model selections. -/
def onBoardChange (st : AppState) (newBoardId : String) : AppState :=
  { st with selectedBoardId := newBoardId,
            selectedCameraId := "", selectedModelId := "" }

/-- Synchronous phase of the `useEffect` keyed on `selectedBoardId`:
with no board selected the camera and model lists are cleared; otherwise
`loadingModels` is set and the two fetches are started (the lists are not
touched until they resolve). -/
def boardEffectStart (st : AppState) : AppState :=
  if st.selectedBoardId == "" then { st with cameras := [], models := [] }
  else { st with loadingModels := true }

/-- Resolution phase of the same effect: `Promise.all` of the camera and
model fetches settles; on success both lists are replaced, on failure they
are left as they were; `finally` clears `loadingModels`. -/
def boardEffectResolve (st : AppState)
    (outcome : Outcome (List CameraItem × List ModelItem)) : AppState :=
  match outcome with
  | Outcome.ok cm =>
      { st with cameras := cm.1, models := cm.2, loadingModels := false }
  | Outcome.err _ => { st with loadingModels := false }

/-- Disabled expression of the camera `<select>`:
`!!jobId || busy || !selectedBoardId`. -/
def cameraSelectDisabled (st : AppState) : Bool :=
  st.jobId.isSome || st.busy || st.selectedBoardId == ""

/-- Disabled expression of the model `<select>`:
`!!jobId || busy || !selectedBoardId || loadingModels`. -/
def modelSelectDisabled (st : AppState) : Bool :=
  st.jobId.isSome || st.busy || st.selectedBoardId == "" || st.loadingModels

/-- Events-polling `useEffect`: the 3-second interval is scheduled exactly
while a job id is present. -/
def eventsPollerScheduled (st : AppState) : Bool := st.jobId.isSome

/-- Profiling-polling `useEffect`: the 500 ms interval is scheduled
exactly while a job id is present. -/
def profilingPollerScheduled (st : AppState) : Bool := st.jobId.isSome

/-- Saved-frames-polling `useEffect`: the 5-second interval is scheduled
exactly while a job id is present. -/
def savedFramesPollerScheduled (st : AppState) : Bool := st.jobId.isSome

/-- Backend requests one round of poller ticks issues: each scheduled
poller fetches its slice, an unscheduled poller issues nothing. -/
def pollerTickRequests (st : AppState) : List Action :=
  (if eventsPollerScheduled st then [Action.eventsReq 20] else []) ++
    (if profilingPollerScheduled st then
      [Action.profilingReq (st.jobId.getD "")] else []) ++
    (if savedFramesPollerScheduled st then [Action.framesReq] else [])

/-- Function `loadProfiling`: bail out with no job; on a successful fetch the
snapshot is fully replaced; a thrown error is logged and the previous
snapshot kept. -/
def loadProfiling (st : AppState) (outcome : Outcome ProfilingData) : AppState :=
  if st.jobId.isNone then st
  else
    match outcome with
    | Outcome.ok data => { st with profiling := some data }
    | Outcome.err _ => st

/-- A run of consecutive profiling poller ticks with the given outcomes. -/
def runProfilingTicks (st : AppState) (outs : List (Outcome ProfilingData)) : AppState :=
  outs.foldl loadProfiling st

/-- Handler `handleImageError`: clear `imageLoaded`; set the retrying error text
only when the countdown reached 0, a stream URL is assigned and a job is
active. -/
def handleImageError (st : AppState) : AppState :=
  let st1 : AppState := { st with imageLoaded := false }
  if st.countdown == 0 && !(st.streamUrl == "") && st.jobId.isSome then
    { st1 with streamError := some "Connection error. Retrying..." }
  else st1

/-- Handler `handleImageLoad`: mark the frame rendered and clear the error text. -/
def handleImageLoad (st : AppState) : AppState :=
  { st with imageLoaded := true, streamError := none }

/-- One start or stop invocation together with the network outcome its
awaited request produced. -/
inductive Op where
  | start (outcome : Outcome StartResp)
  | stop (outcome : Outcome Unit)
deriving Repr, DecidableEq

/-- Dispatch one start/stop invocation to its handler. -/
def stepOp (st : AppState) (op : Op) : AppState × List Action :=
  match op with
  | Op.start o => onStart st o
  | Op.stop o => onStop st o

/-- Run a sequence of start/stop invocations from a state. -/
def runOps (st : AppState) (ops : List Op) : AppState :=
  ops.foldl (fun s op => (stepOp s op).1) st

/-- Number of active jobs recorded in the state: `jobId` is a single
optional string, so this is 1 when a job id is held and 0 otherwise. -/
def activeJobCount (st : AppState) : Nat :=
  if st.jobId.isSome then 1 else 0

/-- A pending one-shot `setTimeout` callback.  The only one the component
registers without keeping a handle is the 8-second warm-up timeout of
`onStart`, whose callback assigns the stream URL. -/
inductive PendingTimer where
  | warmup (url : String)
deriving Repr, DecidableEq

/-- The component state paired with the one-shot timeouts registered but
not yet fired. -/
structure Sys where
  app : AppState
  pending : List PendingTimer
deriving Repr, DecidableEq

/-- Run `onStart` on the system: the handler's `scheduleWarmup` actions
become pending timers (the source stores no handle for this timeout). -/
def sysStart (s : Sys) (outcome : Outcome StartResp) : Sys :=
  let r := onStart s.app outcome
  { app := r.1
    pending := s.pending ++ r.2.filterMap (fun a =>
      match a with
      | Action.scheduleWarmup u => some (PendingTimer.warmup u)
      | _ => none) }

/-- Run `onStop` on the system.  The handler clears no timeout handle
(none was stored), so pending one-shot timers survive a stop verbatim. -/
def sysStop (s : Sys) (outcome : Outcome Unit) : Sys :=
  { app := (onStop s.app outcome).1, pending := s.pending }

/-- Fire the next pending one-shot timer: the warm-up callback runs
`setStreamUrl(res.stream_url)` unconditionally. -/
def fireNextTimer (s : Sys) : Sys :=
  match s.pending with
  | [] => s
  | PendingTimer.warmup u :: rest =>
      { app := { s.app with streamUrl := u }, pending := rest }

/-- A sample board, as the catalog would return it. -/
def sampleBoard : Board :=
  { id := "b1", name := "Board 1", ip := "192.168.1.10", base_path := none }

/-- A sample camera of board `b1`. -/
def sampleCamera : CameraItem :=
  { id := "c1", name := "Cam 1", path := "/dev/video0" }

/-- A sample model deployable on board `b1`. -/
def sampleModel : ModelItem :=
  { id := "m1", name := "Model 1", path := none, script := none,
    model_file := none }

/-- A sample detection event. -/
def sampleEvent : Event :=
  { event_id := "e1", event_type := "overspeed", timestamp := "t0",
    plate_number := some "KA01", speed := some 72, confidence := none,
    camera_id := some "c1", board_id := some "b1", image_base64 := none,
    image_path := none, created_at := none, metadata := none }

/-- A sample saved detection frame. -/
def sampleFrame : SavedFrame :=
  { frame_id := "f1", timestamp := "t1", detections := 2, model_id := "m1",
    image_base64 := "img" }

/-- A profiling snapshot whose frame counter is `n`, to tell successive
poller responses apart. -/
def sampleProfiling (n : Nat) : ProfilingData :=
  { job_id := "j42", fps := 30, resolution := "640x480", frame_count := n,
    inference_ms := 12, model := "m1", camera := "c1", board := "b1",
    frame_delay_ms := 33, timestamp := "t", streaming := true }

/-- Idle state with board, camera and model selected: `canStart` holds. -/
def stReady : AppState :=
  { boards := [sampleBoard], cameras := [sampleCamera],
    models := [sampleModel], selectedBoardId := "b1",
    selectedCameraId := "c1", selectedModelId := "m1", jobId := none,
    streamUrl := "", busy := false, isPaused := false, imageLoaded := false,
    streamError := none, countdown := 0, loadingModels := false,
    events := [], selectedEvent := none, savedFrames := [],
    profiling := none, isVideoMinimized := false,
    isVideoFullscreen := false }

/-- State with job `j42` running, stream assigned and poller data held. -/
def stRunning : AppState :=
  { stReady with
      jobId := some "j42", streamUrl := "u42", imageLoaded := true,
      events := [sampleEvent], profiling := some (sampleProfiling 100),
      savedFrames := [sampleFrame] }

/-- Running state still inside the warm-up window (countdown 5). -/
def stWarm : AppState :=
  { stRunning with countdown := 5 }

/-- System after a successful start from `stReady` with job `j42` and
stream URL `u42`: the warm-up timeout is pending. -/
def c4AfterStart : Sys :=
  sysStart { app := stReady, pending := [] }
    (Outcome.ok { job_id := "j42", stream_url := "u42" })

/-- System after the stop that follows succeeds before the warm-up
timeout has fired. -/
def c4AfterStop : Sys :=
  sysStop c4AfterStart (Outcome.ok ())

/-- C1: at most one job is active after any sequence of start/stop
invocations, and a start invoked while a job id is held returns with the
state unchanged and performs no action at all — in particular it never
issues the start-job request. -/
theorem C1_single_active_job :
    (∀ (st : AppState) (ops : List Op), activeJobCount (runOps st ops) ≤ 1) ∧
    (∀ (st : AppState) (o : Outcome StartResp),
      st.jobId.isSome = true → onStart st o = (st, [])) := by
  constructor
  · intro st ops
    unfold activeJobCount
    split <;> omega
  · intro st o h
    obtain ⟨j, hj⟩ := Option.isSome_iff_exists.mp h
    simp [onStart, canStart, hj]

/-- Witness for C1 at the running state: a second start while job `j42`
is active changes nothing and issues no request. -/
theorem C1_single_active_job_witness :
    activeJobCount (runOps stRunning []) ≤ 1 ∧
    onStart stRunning (Outcome.err "down") = (stRunning, []) :=
  ⟨C1_single_active_job.1 stRunning [],
   C1_single_active_job.2 stRunning (Outcome.err "down") rfl⟩

/-- C2: a failed stop leaves the whole state unchanged (job id, stream
address, events, profiling, saved frames, pause flag, stream-loaded flag;
`busy` was false by the guard and is false again after `finally`), the
stop request was the only action, and all three pollers stay scheduled. -/
theorem C2_stop_failure_preserves_state (st : AppState) (msg : String)
    (hjob : st.jobId.isSome = true) (hbusy : st.busy = false) :
    (onStop st (Outcome.err msg)).1 = st ∧
    (onStop st (Outcome.err msg)).2 = [Action.stopReq] ∧
    eventsPollerScheduled (onStop st (Outcome.err msg)).1 = true ∧
    profilingPollerScheduled (onStop st (Outcome.err msg)).1 = true ∧
    savedFramesPollerScheduled (onStop st (Outcome.err msg)).1 = true := by
  obtain ⟨j, hj⟩ := Option.isSome_iff_exists.mp hjob
  have h1 : onStop st (Outcome.err msg) =
      ({ st with busy := false }, [Action.stopReq]) := by
    simp [onStop, hj, hbusy]
  have h2 : ({ st with busy := false } : AppState) = st := by
    cases st
    simp_all
  rw [h1]
  exact ⟨h2, rfl, by simp [eventsPollerScheduled, hj],
    by simp [profilingPollerScheduled, hj],
    by simp [savedFramesPollerScheduled, hj]⟩

/-- Witness for C2 at the running state with a failing stop request. -/
theorem C2_stop_failure_preserves_state_witness :
    (onStop stRunning (Outcome.err "net")).1 = stRunning ∧
    (onStop stRunning (Outcome.err "net")).2 = [Action.stopReq] ∧
    eventsPollerScheduled (onStop stRunning (Outcome.err "net")).1 = true ∧
    profilingPollerScheduled (onStop stRunning (Outcome.err "net")).1 = true ∧
    savedFramesPollerScheduled (onStop stRunning (Outcome.err "net")).1 = true :=
  C2_stop_failure_preserves_state stRunning "net" rfl rfl

/-- C3: a successful stop empties the events list, nulls the profiling
snapshot, empties the saved-frames list, clears the job id, cancels all
three pollers, and a subsequent poller round issues no backend request. -/
theorem C3_stop_success_clears_pollers (st : AppState)
    (hjob : st.jobId.isSome = true) (hbusy : st.busy = false) :
    (onStop st (Outcome.ok ())).1.events = [] ∧
    (onStop st (Outcome.ok ())).1.profiling = none ∧
    (onStop st (Outcome.ok ())).1.savedFrames = [] ∧
    (onStop st (Outcome.ok ())).1.jobId = none ∧
    eventsPollerScheduled (onStop st (Outcome.ok ())).1 = false ∧
    profilingPollerScheduled (onStop st (Outcome.ok ())).1 = false ∧
    savedFramesPollerScheduled (onStop st (Outcome.ok ())).1 = false ∧
    pollerTickRequests (onStop st (Outcome.ok ())).1 = [] := by
  obtain ⟨j, hj⟩ := Option.isSome_iff_exists.mp hjob
  simp [onStop, hj, hbusy, eventsPollerScheduled, profilingPollerScheduled,
        savedFramesPollerScheduled, pollerTickRequests]

/-- Witness for C3 at the running state with a successful stop. -/
theorem C3_stop_success_clears_pollers_witness :
    (onStop stRunning (Outcome.ok ())).1.events = [] ∧
    (onStop stRunning (Outcome.ok ())).1.profiling = none ∧
    (onStop stRunning (Outcome.ok ())).1.savedFrames = [] ∧
    (onStop stRunning (Outcome.ok ())).1.jobId = none ∧
    eventsPollerScheduled (onStop stRunning (Outcome.ok ())).1 = false ∧
    profilingPollerScheduled (onStop stRunning (Outcome.ok ())).1 = false ∧
    savedFramesPollerScheduled (onStop stRunning (Outcome.ok ())).1 = false ∧
    pollerTickRequests (onStop stRunning (Outcome.ok ())).1 = [] :=
  C3_stop_success_clears_pollers stRunning rfl rfl

/-- C8: for each of the three handlers, the busy flag after the handler
completes is false whenever the handler's own entry guard let it proceed
(and untouched when the guard rejected the call), on success and on
failure alike — no path leaves `busy` permanently true. -/
theorem C8_busy_always_cleared (st : AppState) (os : Outcome StartResp)
    (ou : Outcome Unit) (oq : Outcome Unit) :
    ((onStart st os).1.busy = if canStart st = true then false else st.busy) ∧
    ((onStop st ou).1.busy =
      if (st.jobId.isNone || st.busy) = true then st.busy else false) ∧
    ((onPause st oq).1.busy =
      if (st.jobId.isNone || st.selectedBoardId == "") = true then st.busy
      else false) := by
  refine ⟨?_, ?_, ?_⟩
  · cases hcs : canStart st <;> cases os <;> simp [onStart, hcs]
  · cases hj : st.jobId.isNone <;> cases hb : st.busy <;> cases ou <;>
      simp [onStop, hj, hb]
  · cases hj : st.jobId.isNone <;> cases hs : (st.selectedBoardId == "") <;>
      cases hp : st.isPaused <;> cases oq <;> simp [onPause, hj, hs, hp]

/-- C4: the code violates the claim.  After a start that succeeds with
stream URL `u42` and a stop that succeeds before the 8-second warm-up
timeout fires, the job id is cleared and the stream URL is cleared, yet
the warm-up timeout is still pending (the source stores no handle for it
and clears no timeout in `onStop`), and when it fires it assigns the
stream address `u42` with no job active. -/
theorem C4_warmup_timer_survives_stop :
    c4AfterStop.app.jobId = none ∧
    c4AfterStop.app.streamUrl = "" ∧
    c4AfterStop.pending = [PendingTimer.warmup "u42"] ∧
    (fireNextTimer c4AfterStop).app.streamUrl = "u42" ∧
    (fireNextTimer c4AfterStop).app.jobId = none := by
  refine ⟨rfl, rfl, rfl, rfl, rfl⟩

/-- C5 counterexample: from the ready state (old board `b1` with one
camera and one model loaded), selecting board `b2` and entering the
camera/model effect leaves both lists holding the old board's items
(nothing is cleared), and the camera selector is already enabled
(`disabled = false`) while `loadingModels = true`, i.e. before the two
fetches for the new board have resolved. -/
theorem C5_board_change_counterexample :
    (boardEffectStart (onBoardChange stReady "b2")).cameras =
      [sampleCamera] ∧
    (boardEffectStart (onBoardChange stReady "b2")).models =
      [sampleModel] ∧
    (boardEffectStart (onBoardChange stReady "b2")).loadingModels = true ∧
    cameraSelectDisabled (boardEffectStart (onBoardChange stReady "b2")) =
      false := by
  refine ⟨rfl, rfl, rfl, rfl⟩

/-- C5 (amended): changing the board selection to a non-empty id clears
the camera and model selections but leaves the camera and model lists
unchanged until the fetches resolve (the lists are cleared only when the
board selection becomes empty); while the fetches are outstanding
`loadingModels` holds, which disables the model selector, whereas the
camera selector's enabledness does not wait for the fetches — it depends
only on job/busy state once a board is selected; either resolution of the
two parallel fetches re-enables the model selector. -/
theorem C5_board_change_amended (st : AppState) (b : String)
    (hb : ¬(b = "")) :
    (onBoardChange st b).selectedCameraId = "" ∧
    (onBoardChange st b).selectedModelId = "" ∧
    (boardEffectStart (onBoardChange st b)).cameras = st.cameras ∧
    (boardEffectStart (onBoardChange st b)).models = st.models ∧
    (boardEffectStart (onBoardChange st b)).loadingModels = true ∧
    modelSelectDisabled (boardEffectStart (onBoardChange st b)) = true ∧
    cameraSelectDisabled (boardEffectStart (onBoardChange st b)) =
      (st.jobId.isSome || st.busy) ∧
    (∀ out : Outcome (List CameraItem × List ModelItem),
      (boardEffectResolve (boardEffectStart (onBoardChange st b))
        out).loadingModels = false) ∧
    (boardEffectStart { st with selectedBoardId := "" }).cameras = [] ∧
    (boardEffectStart { st with selectedBoardId := "" }).models = [] := by
  have hbeq : (b == "") = false := by
    simp [hb]
  refine ⟨rfl, rfl, ?_, ?_, ?_, ?_, ?_, ?_, ?_, ?_⟩
  · simp [boardEffectStart, onBoardChange, hbeq]
  · simp [boardEffectStart, onBoardChange, hbeq]
  · simp [boardEffectStart, onBoardChange, hbeq]
  · simp [modelSelectDisabled, boardEffectStart, onBoardChange, hbeq]
  · simp [cameraSelectDisabled, boardEffectStart, onBoardChange, hbeq]
  · intro out
    cases out <;> simp [boardEffectResolve]
  · simp [boardEffectStart]
  · simp [boardEffectStart]

/-- Witness for amended C5 at the ready state switching to board `b2`:
the lists stay as loaded for `b1` and the model selector is disabled. -/
theorem C5_board_change_amended_witness :
    (boardEffectStart (onBoardChange stReady "b2")).models =
      stReady.models ∧
    modelSelectDisabled (boardEffectStart (onBoardChange stReady "b2")) =
      true :=
  ⟨(C5_board_change_amended stReady "b2" (by decide)).2.2.2.1,
   (C5_board_change_amended stReady "b2" (by decide)).2.2.2.2.2.1⟩

/-- C6: a render-failure signal handled while the countdown is positive
leaves the error text as it was, and one handled at countdown 0 with a
non-empty stream URL and an active job sets the retrying error text. -/
theorem C6_image_error (st : AppState) :
    (0 < st.countdown →
      (handleImageError st).streamError = st.streamError) ∧
    (st.countdown = 0 → ¬(st.streamUrl = "") → st.jobId.isSome = true →
      (handleImageError st).streamError =
        some "Connection error. Retrying...") := by
  constructor
  · intro h
    have hc : (st.countdown == 0) = false := by
      simp
      omega
    simp [handleImageError, hc]
  · intro h0 hurl hjob
    simp [handleImageError, h0, hurl, hjob]

/-- Witness for C6: still warming up (countdown 5) the error text is
unchanged; at countdown 0 with stream `u42` and job `j42` it is set. -/
theorem C6_image_error_witness :
    (handleImageError stWarm).streamError = stWarm.streamError ∧
    (handleImageError stRunning).streamError =
      some "Connection error. Retrying..." :=
  ⟨(C6_image_error stWarm).1 (by decide),
   (C6_image_error stRunning).2 rfl (by decide) rfl⟩

/-- C7: over profiling poller ticks, a failed tick keeps the snapshot of
the last successful tick and the next success fully replaces it: with
outcomes ok d1, ok d2, err, ok d4, ok d5 the snapshot is d2 after three
ticks, d4 after four and d5 after five. -/
theorem C7_profiling_retention (st : AppState) (j : String)
    (hj : st.jobId = some j) (d1 d2 d4 d5 : ProfilingData) (msg : String) :
    (runProfilingTicks st
      [Outcome.ok d1, Outcome.ok d2, Outcome.err msg]).profiling =
        some d2 ∧
    (runProfilingTicks st
      [Outcome.ok d1, Outcome.ok d2, Outcome.err msg,
       Outcome.ok d4]).profiling = some d4 ∧
    (runProfilingTicks st
      [Outcome.ok d1, Outcome.ok d2, Outcome.err msg, Outcome.ok d4,
       Outcome.ok d5]).profiling = some d5 := by
  simp [runProfilingTicks, loadProfiling, hj]

/-- Witness for C7 at the running state with concrete snapshots. -/
theorem C7_profiling_retention_witness :
    (runProfilingTicks stRunning
      [Outcome.ok (sampleProfiling 1), Outcome.ok (sampleProfiling 2),
       Outcome.err "net"]).profiling = some (sampleProfiling 2) ∧
    (runProfilingTicks stRunning
      [Outcome.ok (sampleProfiling 1), Outcome.ok (sampleProfiling 2),
       Outcome.err "net", Outcome.ok (sampleProfiling 4)]).profiling =
        some (sampleProfiling 4) ∧
    (runProfilingTicks stRunning
      [Outcome.ok (sampleProfiling 1), Outcome.ok (sampleProfiling 2),
       Outcome.err "net", Outcome.ok (sampleProfiling 4),
       Outcome.ok (sampleProfiling 5)]).profiling =
        some (sampleProfiling 5) :=
  C7_profiling_retention stRunning "j42" rfl (sampleProfiling 1)
    (sampleProfiling 2) (sampleProfiling 4) (sampleProfiling 5) "net"

/-- C9: any start invocation that passes `canStart` has no job id, so the
settle-delay branch is dead: the handler performs no settle delay and its
first action is the start request itself. -/
theorem C9_settle_branch_unreachable (st : AppState)
    (o : Outcome StartResp) (h : canStart st = true) :
    Action.settleDelay ∉ (onStart st o).2 ∧
    (onStart st o).2.head? = some (Action.startReq st.selectedBoardId
      st.selectedCameraId st.selectedModelId) := by
  have hj : st.jobId = none := by
    have h2 := h
    simp only [canStart, Bool.and_eq_true] at h2
    exact Option.isNone_iff_eq_none.mp h2.2
  cases o <;> simp [onStart, h, hj]

/-- Witness for C9 at the ready state with a successful start. -/
theorem C9_settle_branch_unreachable_witness :
    Action.settleDelay ∉
      (onStart stReady
        (Outcome.ok { job_id := "j42", stream_url := "u42" })).2 ∧
    (onStart stReady
      (Outcome.ok { job_id := "j42", stream_url := "u42" })).2.head? =
        some (Action.startReq "b1" "c1" "m1") :=
  C9_settle_branch_unreachable stReady
    (Outcome.ok { job_id := "j42", stream_url := "u42" }) (by decide)

/-- C10: the stopJob fetch wrapper ignores its job-id argument — the
request it assembles is identical for any two job ids, is bodyless, and
always targets POST `/jobs/stop`. -/
theorem C10_stopJob_ignores_jobId (j1 j2 : String) :
    stopJobRequest j1 = stopJobRequest j2 ∧
    (stopJobRequest j1).body = none ∧
    (stopJobRequest j1).method = Method.post ∧
    (stopJobRequest j1).url = BACKEND ++ "/jobs/stop" :=
  ⟨rfl, rfl, rfl, rfl⟩

end AIIPCamera
